import Mathlib

/-!
Verification of the MOTOFIX notifications service
(src/app/routers/notifications.py, src/app/main.py).

The router holds one module-level flag, AT_READY, set by a try/except block
at import time, and two POST handlers, send_sms and send_whatsapp.  Each
handler takes the bare string parameters (to, message), returns an echoing
"fake" dictionary when AT_READY is false, and otherwise calls the provider
client and wraps its response, translating any raised exception into
HTTPException(500, detail=str(e)).

The embedding below is parameterised by the provider payload type and by the
provider send functions, since the africastalking client is external to the
repository.  Each handler also yields the list of provider invocations it
performed, so that claims about which calls reach the provider (and with
which argument shapes) can be stated.
-/

namespace Motofix

/-- Outcome of one call to a provider send primitive: either a payload of the
provider's (otherwise uninterpreted) response type, or a raised exception,
carried as its string description str(e). -/
inductive ProviderOutcome (α : Type) where
  | ok : α → ProviderOutcome α
  | exn : String → ProviderOutcome α
deriving DecidableEq

/-- A value stored in a handler's response dictionary: a string literal from
the handler source, or the provider payload forwarded verbatim. -/
inductive RespValue (α : Type) where
  | s : String → RespValue α
  | payload : α → RespValue α
deriving DecidableEq

/-- A response dictionary, as the ordered key/value list the handlers build. -/
abbrev Response (α : Type) := List (String × RespValue α)

/-- What a handler does for one request: return a 200 JSON body, or raise
HTTPException(code, detail). -/
inductive HandlerResult (α : Type) where
  | ok : Response α → HandlerResult α
  | httpError : Nat → String → HandlerResult α
deriving DecidableEq

/-- One argument passed to a provider send primitive: a bare string or a list
of strings.  The distinction is what claim C2 is about. -/
inductive Arg where
  | str : String → Arg
  | strList : List String → Arg
deriving DecidableEq

/-- A record of one provider invocation, with the arguments it received. -/
inductive ProviderCall where
  | smsSend (body : Arg) (recipients : Arg)
  | whatsappSend (message : Arg) (recipients : Arg)
deriving DecidableEq

/-- Embeds send_sms (src/app/routers/notifications.py, lines 20-29).
If AT_READY is false it returns the fake dictionary and performs no provider
call; otherwise it calls sms.send(message, [to]) and either wraps the
response or raises HTTPException(500, str(e)).  The second component lists
the provider invocations performed. -/
def send_sms {α : Type} (AT_READY : Bool)
    (sms_send : String → List String → ProviderOutcome α)
    («to» message : String) : HandlerResult α × List ProviderCall :=
  if !AT_READY then
    (HandlerResult.ok [("status", RespValue.s "fake"), ("to", RespValue.s «to»),
      ("message", RespValue.s message), ("note", RespValue.s "AT not configured")], [])
  else
    match sms_send message [«to»] with
    | ProviderOutcome.ok response =>
        (HandlerResult.ok [("status", RespValue.s "sent"), ("provider", RespValue.s "SMS"),
          ("response", RespValue.payload response)],
         [ProviderCall.smsSend (Arg.str message) (Arg.strList [«to»])])
    | ProviderOutcome.exn e =>
        (HandlerResult.httpError 500 e,
         [ProviderCall.smsSend (Arg.str message) (Arg.strList [«to»])])

/-- Embeds send_whatsapp (src/app/routers/notifications.py, lines 31-40).
The source calls whatsapp.send(message=message, recipients=[to]): the
recipient is wrapped in a single-element list, exactly as in the SMS branch.
The second component lists the provider invocations performed. -/
def send_whatsapp {α : Type} (AT_READY : Bool)
    (whatsapp_send : String → List String → ProviderOutcome α)
    («to» message : String) : HandlerResult α × List ProviderCall :=
  if !AT_READY then
    (HandlerResult.ok [("status", RespValue.s "fake"), ("to", RespValue.s «to»),
      ("message", RespValue.s message), ("note", RespValue.s "WhatsApp test mode")], [])
  else
    match whatsapp_send message [«to»] with
    | ProviderOutcome.ok response =>
        (HandlerResult.ok [("status", RespValue.s "sent"), ("provider", RespValue.s "WhatsApp"),
          ("response", RespValue.payload response)],
         [ProviderCall.whatsappSend (Arg.str message) (Arg.strList [«to»])])
    | ProviderOutcome.exn e =>
        (HandlerResult.httpError 500 e,
         [ProviderCall.whatsappSend (Arg.str message) (Arg.strList [«to»])])

/-- A JSON value found in a request body field: a string, or some JSON value
of any other type (number, list, object, ...), which the claims only need to
distinguish from strings. -/
inductive JsonField where
  | str : String → JsonField
  | nonStr : JsonField
deriving DecidableEq

/-- An incoming HTTP request to one of the two endpoints, keeping the parts
the claims talk about: the query-string parameters named to and message (each
present or absent), and the JSON body fields named to and message. -/
structure HttpRequest where
  queryTo : Option String
  queryMessage : Option String
  bodyTo : Option JsonField
  bodyMessage : Option JsonField
deriving DecidableEq

/-- Models FastAPI parameter binding for the handler signature
(to: str, message: str) in src/app/routers/notifications.py (lines 21, 32):
bare str parameters of a route handler are required query parameters, so the
framework binds both from the query string — the JSON body is not consulted —
and rejects the request with a 422 validation error when either is absent.
Query parameter values are always strings. -/
def bind_params (req : HttpRequest) : Except Nat (String × String) :=
  match req.queryTo, req.queryMessage with
  | some t, some m => Except.ok (t, m)
  | _, _ => Except.error 422

/-- The binding claim C3 describes, stated from the claim's words for
comparison with bind_params: the fields are read from the JSON request body,
and the request is rejected with 422 when either is absent or not a string. -/
def bind_params_claimed (req : HttpRequest) : Except Nat (String × String) :=
  match req.bodyTo, req.bodyMessage with
  | some (JsonField.str t), some (JsonField.str m) => Except.ok (t, m)
  | _, _ => Except.error 422

/-- The POST /notify/sms endpoint: framework parameter binding followed by the
send_sms handler.  A binding failure is surfaced as the framework's 422
response before any channel logic runs, so no provider call is recorded. -/
def sms_endpoint {α : Type} (AT_READY : Bool)
    (sms_send : String → List String → ProviderOutcome α)
    (req : HttpRequest) : HandlerResult α × List ProviderCall :=
  match bind_params req with
  | Except.ok (t, m) => send_sms AT_READY sms_send t m
  | Except.error code => (HandlerResult.httpError code "validation error", [])

/-- The POST /notify/whatsapp endpoint: framework parameter binding followed
by the send_whatsapp handler. -/
def whatsapp_endpoint {α : Type} (AT_READY : Bool)
    (whatsapp_send : String → List String → ProviderOutcome α)
    (req : HttpRequest) : HandlerResult α × List ProviderCall :=
  match bind_params req with
  | Except.ok (t, m) => send_whatsapp AT_READY whatsapp_send t m
  | Except.error code => (HandlerResult.httpError code "validation error", [])

/-- Outcome of the module-level try block (lines 8-18): either the import and
africastalking.initialize succeed, yielding the two provider send functions
bound to the module names sms and whatsapp, or some step raises, carrying the
exception description that line 17 logs. -/
inductive InitOutcome (α : Type) where
  | ok : (String → List String → ProviderOutcome α) →
         (String → List String → ProviderOutcome α) → InitOutcome α
  | exn : String → InitOutcome α

/-- The module-level state of src/app/routers/notifications.py after import:
the AT_READY flag and the two provider send functions. -/
structure ModuleState (α : Type) where
  AT_READY : Bool
  sms_send : String → List String → ProviderOutcome α
  whatsapp_send : String → List String → ProviderOutcome α

/-- Embeds the module-level try/except (lines 8-18): on success AT_READY is
set to True and the provider objects are bound; on any exception AT_READY is
set to False.  In that case the names sms and whatsapp stay unbound in the
source; the placeholder functions standing for them here are never consulted,
because both handlers return the fake result before reaching them whenever
AT_READY is false (proved below for C9). -/
def module_init {α : Type} (o : InitOutcome α) : ModuleState α :=
  match o with
  | InitOutcome.ok s w => ⟨true, s, w⟩
  | InitOutcome.exn _ =>
      ⟨false, fun _ _ => ProviderOutcome.exn "NameError: name sms is not defined",
       fun _ _ => ProviderOutcome.exn "NameError: name whatsapp is not defined"⟩

/-- One request addressed to one of the two channels. -/
inductive Request where
  | sms («to» message : String)
  | whatsapp («to» message : String)

/-- Dispatches one request to its handler.  The handlers assign no module
global, so the module state after the call is the state before it. -/
def handle {α : Type} (st : ModuleState α) :
    Request → (HandlerResult α × List ProviderCall) × ModuleState α
  | Request.sms t m => (send_sms st.AT_READY st.sms_send t m, st)
  | Request.whatsapp t m => (send_whatsapp st.AT_READY st.whatsapp_send t m, st)

/-- Runs a sequence of requests against the module state, threading the state
through the calls and collecting each outcome. -/
def runRequests {α : Type} (st : ModuleState α) :
    List Request → List (HandlerResult α × List ProviderCall) × ModuleState α
  | [] => ([], st)
  | r :: rs =>
      let p := handle st r
      let q := runRequests p.2 rs
      (p.1 :: q.1, q.2)

/-- The handlers leave the module state untouched, so running any request
sequence returns the initial state. -/
theorem runRequests_state {α : Type} (st : ModuleState α) (rs : List Request) :
    (runRequests st rs).2 = st := by
  induction rs generalizing st with
  | nil => rfl
  | cons r rs ih =>
      cases r with
      | sms t m => simpa [runRequests, handle] using ih st
      | whatsapp t m => simpa [runRequests, handle] using ih st

/-- Holds when a handler outcome is a 200 response whose "status" key carries
the string v. -/
def hasStatus {α : Type} (res : HandlerResult α) (v : String) : Prop :=
  ∃ resp, res = HandlerResult.ok resp ∧
    List.lookup "status" resp = some (RespValue.s v)

/-- Shape invariant of claim C10: any 200 response is either the fake shape
with exactly the keys status, to, message, note, or the sent shape with
exactly the keys status, provider, response, each identified by its status
value. -/
def resultShapeOK {α : Type} (res : HandlerResult α) : Prop :=
  match res with
  | HandlerResult.httpError _ _ => True
  | HandlerResult.ok resp =>
      (List.lookup "status" resp = some (RespValue.s "fake") ∧
        resp.map Prod.fst = ["status", "to", "message", "note"]) ∨
      (List.lookup "status" resp = some (RespValue.s "sent") ∧
        resp.map Prod.fst = ["status", "provider", "response"])

/-- C1: with AT_READY false, send_sms returns exactly the object
{status: "fake", to, message, note: "AT not configured"} and send_whatsapp
exactly {status: "fake", to, message, note: "WhatsApp test mode"}, echoing
to and message verbatim, and neither performs any provider invocation. -/
theorem C1_fake_mode_exact {α : Type}
    (prov_s prov_w : String → List String → ProviderOutcome α)
    («to» message : String) :
    send_sms false prov_s «to» message =
      (HandlerResult.ok [("status", RespValue.s "fake"), ("to", RespValue.s «to»),
        ("message", RespValue.s message), ("note", RespValue.s "AT not configured")], []) ∧
    send_whatsapp false prov_w «to» message =
      (HandlerResult.ok [("status", RespValue.s "fake"), ("to", RespValue.s «to»),
        ("message", RespValue.s message), ("note", RespValue.s "WhatsApp test mode")], []) :=
  ⟨rfl, rfl⟩

/-- C2 counterexample: the claim says the WhatsApp channel passes the bare
recipient, not a list; but in ready mode on a concrete request the recorded
WhatsApp provider invocation does not carry the bare recipient string — the
source line whatsapp.send(message=message, recipients=[to]) wraps it in a
single-element list. -/
theorem C2_counterexample :
    (send_whatsapp true (fun _ _ => (ProviderOutcome.ok 0 : ProviderOutcome Nat))
        "+256758969973" "Job alert").2 ≠
      [ProviderCall.whatsappSend (Arg.str "Job alert") (Arg.str "+256758969973")] := by
  decide

/-- C2 amended: with AT_READY true, both channels pass the message and the
recipient wrapped in a single-element list to their provider send primitive:
SMS as sms.send(message, [to]) and WhatsApp as
whatsapp.send(message=message, recipients=[to]); the shapes differ only in
keyword versus positional style, not in the list wrapping of the recipient. -/
theorem C2_call_shapes {α : Type}
    (prov_s prov_w : String → List String → ProviderOutcome α)
    («to» message : String) :
    (send_sms true prov_s «to» message).2 =
      [ProviderCall.smsSend (Arg.str message) (Arg.strList [«to»])] ∧
    (send_whatsapp true prov_w «to» message).2 =
      [ProviderCall.whatsappSend (Arg.str message) (Arg.strList [«to»])] := by
  constructor
  · cases h : prov_s message [«to»] <;> simp [send_sms, h]
  · cases h : prov_w message [«to»] <;> simp [send_whatsapp, h]

/-- C3 counterexample: the claim says the endpoints read (to, message) from a
JSON request body; but on a concrete request that carries both fields as
strings in the JSON body and none in the query string, the handlers' actual
parameter binding (bare str parameters, bound from the query string) rejects
the request with 422, while the binding the claim describes accepts it. -/
theorem C3_counterexample :
    bind_params ⟨none, none, some (JsonField.str "+256758969973"),
        some (JsonField.str "Job alert")⟩ ≠
      bind_params_claimed ⟨none, none, some (JsonField.str "+256758969973"),
        some (JsonField.str "Job alert")⟩ := by
  simp [bind_params, bind_params_claimed]

/-- C3 amended: the endpoints carry to and message as query parameters (the
handlers declare bare str parameters, which the framework binds from the
query string); every request in which either is absent from the query string
fails with a 422 validation error before any channel logic runs and no
provider call is attempted, and when both are present the endpoint runs the
handler on exactly the bound strings. -/
theorem C3_query_binding {α : Type} (AT_READY : Bool)
    (prov_s prov_w : String → List String → ProviderOutcome α)
    (req : HttpRequest) :
    (req.queryTo = none ∨ req.queryMessage = none →
      sms_endpoint AT_READY prov_s req =
        (HandlerResult.httpError 422 "validation error", []) ∧
      whatsapp_endpoint AT_READY prov_w req =
        (HandlerResult.httpError 422 "validation error", [])) ∧
    (∀ t m, req.queryTo = some t → req.queryMessage = some m →
      sms_endpoint AT_READY prov_s req = send_sms AT_READY prov_s t m ∧
      whatsapp_endpoint AT_READY prov_w req = send_whatsapp AT_READY prov_w t m) := by
  rcases req with ⟨qt, qm, bt, bm⟩
  constructor
  · intro h
    cases qt <;> cases qm <;>
      simp_all [sms_endpoint, whatsapp_endpoint, bind_params]
  · rintro t m ht hm
    simp only at ht hm
    subst ht
    subst hm
    exact ⟨rfl, rfl⟩

/-- C3 amended, witness: a request whose query string lacks both parameters
gets the 422 with no provider call, and one carrying both query parameters
runs the handler on them. -/
theorem C3_query_binding_witness :
    sms_endpoint true (fun _ _ => (ProviderOutcome.ok 0 : ProviderOutcome Nat))
        ⟨none, none, none, none⟩ =
      (HandlerResult.httpError 422 "validation error", []) ∧
    sms_endpoint true (fun _ _ => (ProviderOutcome.ok 0 : ProviderOutcome Nat))
        ⟨some "+256758969973", some "Job alert", none, none⟩ =
      send_sms true (fun _ _ => (ProviderOutcome.ok 0 : ProviderOutcome Nat))
        "+256758969973" "Job alert" :=
  ⟨((C3_query_binding true (fun _ _ => (ProviderOutcome.ok 0 : ProviderOutcome Nat))
      (fun _ _ => (ProviderOutcome.ok 0 : ProviderOutcome Nat))
      ⟨none, none, none, none⟩).1 (Or.inl rfl)).1,
   ((C3_query_binding true (fun _ _ => (ProviderOutcome.ok 0 : ProviderOutcome Nat))
      (fun _ _ => (ProviderOutcome.ok 0 : ProviderOutcome Nat))
      ⟨some "+256758969973", some "Job alert", none, none⟩).2
      "+256758969973" "Job alert" rfl rfl).1⟩

/-- C4: with AT_READY true, when the provider send primitive raises an
exception with description e, both handlers raise HTTPException with status
code exactly 500 and detail equal to e (so the detail contains the raised
error's description), and neither returns a 200 response. -/
theorem C4_provider_error_500 {α : Type}
    (prov : String → List String → ProviderOutcome α) («to» message e : String)
    (h : prov message [«to»] = ProviderOutcome.exn e) :
    (send_sms true prov «to» message).1 = HandlerResult.httpError 500 e ∧
    (send_whatsapp true prov «to» message).1 = HandlerResult.httpError 500 e := by
  constructor <;> simp [send_sms, send_whatsapp, h]

/-- C4 witness: a provider that raises "boom" yields the 500 with detail
"boom" on both channels. -/
theorem C4_provider_error_500_witness :
    (send_sms true (fun _ _ => (ProviderOutcome.exn "boom" : ProviderOutcome Nat))
        "+256758969973" "Job alert").1 = HandlerResult.httpError 500 "boom" ∧
    (send_whatsapp true (fun _ _ => (ProviderOutcome.exn "boom" : ProviderOutcome Nat))
        "+256758969973" "Job alert").1 = HandlerResult.httpError 500 "boom" :=
  C4_provider_error_500 (fun _ _ => ProviderOutcome.exn "boom")
    "+256758969973" "Job alert" "boom" rfl

/-- C5: with AT_READY true, when the provider call returns r without raising,
send_sms returns exactly {status: "sent", provider: "SMS", response: r} and
send_whatsapp exactly {status: "sent", provider: "WhatsApp", response: r},
with r forwarded verbatim (the statement is polymorphic in the payload type,
so the handlers cannot inspect or reshape r). -/
theorem C5_sent_verbatim {α : Type}
    (prov : String → List String → ProviderOutcome α) («to» message : String)
    (r : α) (h : prov message [«to»] = ProviderOutcome.ok r) :
    (send_sms true prov «to» message).1 =
      HandlerResult.ok [("status", RespValue.s "sent"), ("provider", RespValue.s "SMS"),
        ("response", RespValue.payload r)] ∧
    (send_whatsapp true prov «to» message).1 =
      HandlerResult.ok [("status", RespValue.s "sent"), ("provider", RespValue.s "WhatsApp"),
        ("response", RespValue.payload r)] := by
  constructor <;> simp [send_sms, send_whatsapp, h]

/-- C5 witness: a provider returning the payload 7 yields the sent envelope
wrapping 7 on both channels. -/
theorem C5_sent_verbatim_witness :
    (send_sms true (fun _ _ => (ProviderOutcome.ok 7 : ProviderOutcome Nat))
        "+256758969973" "Job alert").1 =
      HandlerResult.ok [("status", RespValue.s "sent"), ("provider", RespValue.s "SMS"),
        ("response", RespValue.payload 7)] ∧
    (send_whatsapp true (fun _ _ => (ProviderOutcome.ok 7 : ProviderOutcome Nat))
        "+256758969973" "Job alert").1 =
      HandlerResult.ok [("status", RespValue.s "sent"), ("provider", RespValue.s "WhatsApp"),
        ("response", RespValue.payload 7)] :=
  C5_sent_verbatim (fun _ _ => ProviderOutcome.ok 7) "+256758969973" "Job alert" 7 rfl

/-- C6: with AT_READY true, neither handler ever produces a response with
status "fake"; the only outcomes are a response with status "sent" or the
500 error — no retry and no fallback to fake mode exists in the code. -/
theorem C6_never_fake_when_ready {α : Type}
    (prov_s prov_w : String → List String → ProviderOutcome α)
    («to» message : String) :
    (¬ hasStatus (send_sms true prov_s «to» message).1 "fake" ∧
      (hasStatus (send_sms true prov_s «to» message).1 "sent" ∨
        ∃ d, (send_sms true prov_s «to» message).1 = HandlerResult.httpError 500 d)) ∧
    (¬ hasStatus (send_whatsapp true prov_w «to» message).1 "fake" ∧
      (hasStatus (send_whatsapp true prov_w «to» message).1 "sent" ∨
        ∃ d, (send_whatsapp true prov_w «to» message).1 = HandlerResult.httpError 500 d)) := by
  constructor
  · cases h : prov_s message [«to»] <;>
      simp [send_sms, h, hasStatus, List.lookup]
  · cases h : prov_w message [«to»] <;>
      simp [send_whatsapp, h, hasStatus, List.lookup]

/-- C6 witness: with a concrete succeeding provider the SMS outcome is not a
fake-status response. -/
theorem C6_never_fake_when_ready_witness :
    ¬ hasStatus (send_sms true
        (fun _ _ => (ProviderOutcome.ok 7 : ProviderOutcome Nat))
        "+256758969973" "Job alert").1 "fake" :=
  ((C6_never_fake_when_ready (fun _ _ => (ProviderOutcome.ok 7 : ProviderOutcome Nat))
      (fun _ _ => (ProviderOutcome.ok 7 : ProviderOutcome Nat))
      "+256758969973" "Job alert").1).1

/-- C7: the module initialization sets AT_READY once — true when the import
and provider initialization succeed, false when the try block raises — and
no sequence of send_sms and send_whatsapp calls changes the module state, so
AT_READY after any request sequence equals its value at startup. -/
theorem C7_ready_flag_immutable {α : Type}
    (s w : String → List String → ProviderOutcome α) (e : String)
    (o : InitOutcome α) (reqs : List Request) :
    (module_init (InitOutcome.ok s w)).AT_READY = true ∧
    (module_init (InitOutcome.exn e : InitOutcome α)).AT_READY = false ∧
    (runRequests (module_init o) reqs).2.AT_READY = (module_init o).AT_READY :=
  ⟨rfl, rfl, by rw [runRequests_state]⟩

/-- C8: requests are independent — running any sequence of requests against a
module state produces, at each position, exactly the outcome of handling that
request alone against the initial state, so no earlier request (in
particular no provider failure on either channel) affects any later one. -/
theorem C8_request_independence {α : Type} (st : ModuleState α)
    (reqs : List Request) :
    (runRequests st reqs).1 = reqs.map (fun r => (handle st r).1) := by
  induction reqs with
  | nil => rfl
  | cons r rs ih => cases r <;> simp [runRequests, handle, ih]

/-- C9: with AT_READY false the handlers are total on all string inputs,
including empty and arbitrarily formed strings: each returns a 200 fake-
status response (never an HTTPException) and performs no provider
invocation — no length, emptiness or format check exists in the channel
logic. -/
theorem C9_not_ready_total {α : Type}
    (prov_s prov_w : String → List String → ProviderOutcome α)
    («to» message : String) :
    (hasStatus (send_sms false prov_s «to» message).1 "fake" ∧
      (send_sms false prov_s «to» message).2 = []) ∧
    (hasStatus (send_whatsapp false prov_w «to» message).1 "fake" ∧
      (send_whatsapp false prov_w «to» message).2 = []) :=
  ⟨⟨⟨_, rfl, rfl⟩, rfl⟩, ⟨⟨_, rfl, rfl⟩, rfl⟩⟩

/-- C10: every 200 response of either handler has status "fake" or "sent",
and the status determines the full ordered key set: fake responses have
exactly the keys status, to, message, note, and sent responses exactly
status, provider, response, so the two shapes are disjoint and
distinguishable by status alone. -/
theorem C10_response_shape {α : Type} (AT_READY : Bool)
    (prov_s prov_w : String → List String → ProviderOutcome α)
    («to» message : String) :
    resultShapeOK (send_sms AT_READY prov_s «to» message).1 ∧
    resultShapeOK (send_whatsapp AT_READY prov_w «to» message).1 := by
  cases AT_READY with
  | false => exact ⟨Or.inl ⟨rfl, rfl⟩, Or.inl ⟨rfl, rfl⟩⟩
  | true =>
      constructor
      · cases h : prov_s message [«to»] <;>
          simp [send_sms, h, resultShapeOK, List.lookup]
      · cases h : prov_w message [«to»] <;>
          simp [send_whatsapp, h, resultShapeOK, List.lookup]

end Motofix
